import Mathlib

/-!
Shallow embedding of the orchestration core of the Presentation_Agents
repository: the SpecialistAgent repository-intelligence pipeline
(app/agents/specialist_agent.py), the tool wrappers registered by the
agent factory (app/agents/factory.py), and the AgentManager orchestrator
(app/services/agent_manager.py) together with the A2A send endpoint
(app/routers/system.py).

External effects (the language-model calls and MCP tool transports) are
modelled as explicit oracle functions returning Except, so that a Python
exception corresponds to an Except.error value and "the fault is caught"
corresponds to matching on that value.  Timestamps are modelled as an
opaque Nat parameter.
-/

namespace PresAgents

/-! ### Python string primitives used by the source -/

/-- Index of the first occurrence of `pat` in the suffix of the scanned
string, counting from `i`; mirrors Python str.find restricted to
non-negative results (absence is `none`, Python's `-1`). -/
def strFindFrom (pat : List Char) : List Char → Nat → Option Nat
  | [], i => if pat.isPrefixOf ([] : List Char) then some i else none
  | c :: cs, i =>
    if pat.isPrefixOf (c :: cs) then some i else strFindFrom pat cs (i + 1)

/-- Python `s.find(pat)`, with `none` for Python's `-1`. -/
def strFind (pat s : List Char) : Option Nat :=
  strFindFrom pat s 0

/-- Python `s.rfind(pat)`: index of the last occurrence, `none` for `-1`. -/
def strRfindAux (pat : List Char) : List Char → Nat → Option Nat
  | [], i => if pat.isPrefixOf ([] : List Char) then some i else none
  | c :: cs, i =>
    match strRfindAux pat cs (i + 1) with
    | some j => some j
    | none => if pat.isPrefixOf (c :: cs) then some i else none

def strRfind (pat s : List Char) : Option Nat :=
  strRfindAux pat s 0

/-- Python `pat in s` (substring containment), defined through `strFind`
exactly as Python guarantees `pat in s ↔ s.find(pat) != -1`. -/
def strContains (pat s : List Char) : Bool :=
  (strFind pat s).isSome

/-- Python `s.replace("\\'", "'")`: left-to-right replacement of every
backslash-quote pair by a quote. -/
def unescapeQuotes : List Char → List Char
  | '\\' :: '\'' :: rest => '\'' :: unescapeQuotes rest
  | c :: cs => c :: unescapeQuotes cs
  | [] => []

/-- The wrapper marker `"AgentRunResult(output="` tested by the `in`
check at the top of `_extract_content`. -/
def wrapperMarker : List Char :=
  "AgentRunResult(output=".toList

/-- The pattern `"output='"` passed to `find` (its final character is the
single-quote character, written as a char literal). -/
def outputMarker : List Char :=
  "output=".toList ++ ['\'']

/-- The pattern `"')"` passed to `rfind`. -/
def closeMarker : List Char :=
  ['\'', ')']

/-- Embedding of `SpecialistAgent._extract_content`.  The Python code:
tests the wrapper marker with `in`; computes `start = find("output='") + 8`
and only proceeds when `start > 7` (i.e. when `find` succeeded); computes
`end = rfind("')")` and only proceeds when `end > start`; then returns
the slice `s[start:end]` with escaped quotes unescaped; on every other
path it returns the input unchanged. -/
def extractContent (s : String) : String :=
  let cs := s.toList
  if strContains wrapperMarker cs then
    match strFind outputMarker cs with
    | none => s
    | some i =>
      let start := i + 8
      match strRfind closeMarker cs with
      | none => s
      | some stop =>
        if start < stop then
          String.mk (unescapeQuotes ((cs.take stop).drop start))
        else s
  else s

/-! ### Data model of the repository-intelligence pipeline

Structures mirror the pydantic models as they are constructed by
`SpecialistAgent._analyze_repository` and `SpecialistAgent.process_request`
(the field sets also appear in app/models/responses.py and in the test
suite).  Python dictionaries returned by the repository-details tool are
modelled with Option-valued fields, so that `d.get(key, default)` becomes
`Option.getD`. -/

structure RepoMetrics where
  stars : Int
  forks : Int
  watchers : Int
  open_issues : Int
  size : Int
  language : Option String
  default_branch : String
deriving DecidableEq, Repr

structure GitHubRepository where
  name : String
  full_name : String
  owner : String
  description : String
  url : String
  homepage : Option String
  created_at : Option String
  updated_at : Option String
  pushed_at : Option String
  metrics : RepoMetrics
  topics : List String
  license : Option String
  is_fork : Bool
  archived : Bool
deriving DecidableEq, Repr

/-- The nested `metrics` dictionary of a repository-details result. -/
structure MetricsDict where
  stars : Option Int
  forks : Option Int
  watchers : Option Int
  open_issues : Option Int
  size : Option Int
  language : Option String
deriving DecidableEq, Repr

def emptyMetricsDict : MetricsDict :=
  { stars := none, forks := none, watchers := none, open_issues := none,
    size := none, language := none }

/-- The nested `license` dictionary (`repo_details.get("license", {})`). -/
structure LicenseDict where
  name : Option String
deriving DecidableEq, Repr

/-- The repository-details dictionary read by `_analyze_repository`. -/
structure RepoDetails where
  description : Option String
  html_url : Option String
  homepage : Option String
  created_at : Option String
  updated_at : Option String
  pushed_at : Option String
  metrics : Option MetricsDict
  default_branch : Option String
  topics : Option (List String)
  license : Option LicenseDict
  fork : Option Bool
  archived : Option Bool
deriving DecidableEq, Repr

/-- `RepoIntelRequest` (app/models/requests.py is not under src/; the
field set is the one used by the code and listed in the spec: a list of
repository identifiers plus an `include_metrics` flag). -/
structure RepoIntelRequest where
  repositories : List String
  include_metrics : Bool
deriving DecidableEq, Repr

/-- `RepoIntelResponse` (app/models/responses.py).  `analysis_timestamp`
is an opaque clock value; `insights` is optional exactly as in the
pydantic model. -/
structure RepoIntelResponse where
  repositories : List GitHubRepository
  total_repos : Nat
  analysis_timestamp : Nat
  insights : Option String
deriving DecidableEq, Repr

/-! ### SpecialistAgent -/

/-- Python `repo_name.split("/", 1)` guarded by `"/" in repo_name`:
`none` when the string contains no slash (the validation-reject branch),
otherwise the parts before and after the first slash. -/
def splitAtFirstSlash : List Char → Option (List Char × List Char)
  | [] => none
  | c :: cs =>
    if c = '/' then some ([], cs)
    else (splitAtFirstSlash cs).map (fun p => (c :: p.1, p.2))

/-- Number of slash characters in an identifier (used only to state the
"exactly one separator" wording of the spec). -/
def countSlashes (s : String) : Nat :=
  (s.toList.filter (fun c => c = '/')).length

/-- Embedding of `SpecialistAgent._analyze_repository`.  The oracle
`details` stands for `agent.run(prompt)` followed by `.data`: an
`Except.error` is a raised fault (caught by the per-item handler, which
returns `None`), `Except.ok none` is a falsy details dictionary, and
`Except.ok (some d)` is a usable one.  The `include_metrics` flag is
accepted and ignored, exactly as in the source. -/
def analyzeRepository (details : String → Except String (Option RepoDetails))
    (repo_name : String) (include_metrics : Bool) : Option GitHubRepository :=
  match splitAtFirstSlash repo_name.toList with
  | none => none
  | some (ownerCs, repoCs) =>
    let owner := String.mk ownerCs
    let repo := String.mk repoCs
    match details ("Get GitHub repository details for " ++ owner ++ "/" ++ repo) with
    | .error _ => none
    | .ok none => none
    | .ok (some d) =>
      let m := (d.metrics).getD emptyMetricsDict
      some
        { name := repo
          full_name := repo_name
          owner := owner
          description := (d.description).getD ""
          url := (d.html_url).getD ("https://github.com/" ++ repo_name)
          homepage := d.homepage
          created_at := d.created_at
          updated_at := d.updated_at
          pushed_at := d.pushed_at
          metrics :=
            { stars := (m.stars).getD 0
              forks := (m.forks).getD 0
              watchers := (m.watchers).getD 0
              open_issues := (m.open_issues).getD 0
              size := (m.size).getD 0
              language := m.language
              default_branch := (d.default_branch).getD "main" }
          topics := (d.topics).getD []
          license := ((d.license).getD { name := none }).name
          is_fork := (d.fork).getD false
          archived := (d.archived).getD false }

/-- Embedding of `SpecialistAgent.process_request`.  The loop body over
`request.repositories[:10]` appends each non-`None` analysis; the oracle
`runInsights` stands for `str(agent.run(analysis_prompt))`, a function of
the accumulated `repo_data` (the prompt is built from it); an
`Except.error` there is a fault reaching the top-level handler, which
returns the empty-collections error response.  The second component of
the result is the list of identifiers handed to `_analyze_repository`. -/
def processRequest (details : String → Except String (Option RepoDetails))
    (runInsights : List GitHubRepository → Except String String)
    (now : Nat) (request : RepoIntelRequest) : RepoIntelResponse × List String :=
  let attempted := request.repositories.take 10
  let repo_data := attempted.filterMap
    (fun n => analyzeRepository details n request.include_metrics)
  if repo_data.isEmpty then
    ({ repositories := repo_data
       total_repos := repo_data.length
       analysis_timestamp := now
       insights := some "No repositories could be analyzed." }, attempted)
  else
    match runInsights repo_data with
    | .ok raw =>
      ({ repositories := repo_data
         total_repos := repo_data.length
         analysis_timestamp := now
         insights := some (extractContent raw) }, attempted)
    | .error e =>
      ({ repositories := []
         total_repos := 0
         analysis_timestamp := now
         insights := some ("An error occurred: " ++ e) }, attempted)

/-! ### Concrete oracle instances used by witnesses and counterexamples -/

/-- A details oracle whose every lookup yields a falsy dictionary. -/
def detailsNone : String → Except String (Option RepoDetails) :=
  fun _ => .ok none

/-- A repository-details dictionary with every key absent. -/
def emptyRepoDetails : RepoDetails :=
  { description := none, html_url := none, homepage := none,
    created_at := none, updated_at := none, pushed_at := none,
    metrics := none, default_branch := none, topics := none,
    license := none, fork := none, archived := none }

/-- A details oracle that resolves every lookup successfully. -/
def detailsAlways : String → Except String (Option RepoDetails) :=
  fun _ => .ok (some emptyRepoDetails)

/-- An insights oracle that always answers. -/
def insightsOk : List GitHubRepository → Except String String :=
  fun _ => .ok "ok"

/-- An insights oracle that always raises. -/
def insightsFail : List GitHubRepository → Except String String :=
  fun _ => .error "boom"

/-- Fifteen distinct well-formed repository identifiers. -/
def ids15 : List String :=
  ["o/r0", "o/r1", "o/r2", "o/r3", "o/r4", "o/r5", "o/r6", "o/r7",
   "o/r8", "o/r9", "o/r10", "o/r11", "o/r12", "o/r13", "o/r14"]

/-! ### Delegation / messaging layer -/

/-- The inner value of an optional `"payload"` key. -/
structure A2AInnerPayload where
  repositories : Option (List String)
deriving DecidableEq, Repr

/-- The dictionary handed to `handle_delegation_from_entry` (and, before
that, the `payload` field of the HTTP A2A send request): the two keys the
handler may read, each optional. -/
structure A2AMessageDict where
  payload : Option A2AInnerPayload
  repositories : Option (List String)
deriving DecidableEq, Repr

/-- Embedding of `SpecialistAgent.handle_delegation_from_entry`: reads
`message.get("payload", {}).get("repositories", [])`, builds a
`RepoIntelRequest` (the `include_metrics` default of the request model,
whose file is not under src/, is irrelevant downstream since the flag is
ignored) and runs the full `process_request` pipeline, returning the
serialized response. -/
def handleDelegationFromEntry
    (details : String → Except String (Option RepoDetails))
    (runInsights : List GitHubRepository → Except String String)
    (now : Nat) (message : A2AMessageDict) : RepoIntelResponse :=
  let payload := (message.payload).getD { repositories := none }
  let repositories := (payload.repositories).getD []
  (processRequest details runInsights now
    { repositories := repositories, include_metrics := true }).1

/-- Result dictionary of `AgentManager.receive_a2a_message`: either the
serialized handler response (which never carries an `error` key — the
`RepoIntelResponse` field set is fixed) or a dictionary with an `error`
key. -/
inductive A2AResult where
  | ok (resp : RepoIntelResponse)
  | err (msg : String)
deriving DecidableEq, Repr

/-- Embedding of `AgentManager.receive_a2a_message`: dispatches to the
specialist handler only when the recipient is `"specialist_agent"` and
that agent is present; otherwise returns the unknown-recipient error
dictionary.  The surrounding try/except needs no separate branch because
the embedded handler is total. -/
def receiveA2AMessage
    (details : String → Except String (Option RepoDetails))
    (runInsights : List GitHubRepository → Except String String)
    (now : Nat) (specialistPresent : Bool)
    (recipient : String) (message_type : String)
    (payload : A2AMessageDict) : A2AResult :=
  if recipient = "specialist_agent" ∧ specialistPresent then
    .ok (handleDelegationFromEntry details runInsights now payload)
  else
    .err ("Unknown recipient or message type for " ++ recipient)

/-- The response model of the `/a2a/send` route. -/
structure A2ASendResponse where
  status : String
  result : A2AResult
  correlation_id : Option String
deriving DecidableEq, Repr

/-- Embedding of the `a2a_send` route handler: delivers the message and
sets `status` to `"ok"` exactly when the result dictionary has no
`error` key. -/
def a2aSend
    (details : String → Except String (Option RepoDetails))
    (runInsights : List GitHubRepository → Except String String)
    (now : Nat) (specialistPresent : Bool)
    (recipient : String) (message_type : String)
    (payload : A2AMessageDict) (correlation_id : Option String) : A2ASendResponse :=
  let result :=
    receiveA2AMessage details runInsights now specialistPresent
      recipient message_type payload
  { status := match result with | .ok _ => "ok" | .err _ => "error"
    result := result
    correlation_id := correlation_id }

/-- The concrete delegation payload `{repositories: ["a/b"]}`. -/
def payloadAB : A2AMessageDict :=
  { payload := none, repositories := some ["a/b"] }

/-! ### Tool wrappers registered by the agent factory -/

/-- One argument of an MCP tool call. -/
inductive ToolArg where
  | str (s : String)
  | num (n : Int)
deriving DecidableEq, Repr

/-- An MCP client: `callTool` takes a tool name and arguments and either
returns the raw response blob or raises (Except.error). -/
structure MCPClient where
  callTool : String → List (String × ToolArg) → Except String String

/-- Value returned by one of the registered agent tools: the raw client
response passed through, or an error dictionary with an `error` entry and
an optional `details` entry. -/
inductive ToolResult where
  | payload (v : String)
  | errorMap (error : String) (details : Option String)
deriving DecidableEq, Repr

/-- Embedding of the `search_brave` tool (the Python default for
`freshness` is `"pm"`; here the argument is explicit). -/
def search_brave (getClient : String → Option MCPClient)
    (braveLimit : Int) (query freshness : String) : ToolResult :=
  match getClient "brave_search" with
  | none => .errorMap "Brave Search MCP client not available" none
  | some c =>
    match c.callTool "brave_web_search"
        [("query", .str query), ("freshness", .str freshness),
         ("count", .num braveLimit)] with
    | .ok v => .payload v
    | .error e => .errorMap "mcp_connection_failed" (some e)

/-- Embedding of the `get_hacker_news_stories` tool (Python defaults:
`story_type="top"`, `limit=10`). -/
def get_hacker_news_stories (getClient : String → Option MCPClient)
    (story_type : String) (limit : Int) : ToolResult :=
  match getClient "hacker_news" with
  | none => .errorMap "Hacker News MCP client not available" none
  | some c =>
    let st := story_type.toLower
    let hn_story_type :=
      if st = "top" then "topstories"
      else if st = "new" then "newstories"
      else if st = "best" then "beststories"
      else story_type
    match c.callTool "get_stories"
        [("story_type", .str hn_story_type), ("limit", .num limit)] with
    | .ok v => .payload v
    | .error e => .errorMap "mcp_connection_failed" (some e)

/-- Embedding of the `search_github_repos` tool (Python defaults:
`sort="stars"`, `limit=10`); note its except-branch returns only
`{"error": str(e)}`, with no details entry. -/
def search_github_repos (getClient : String → Option MCPClient)
    (query sort : String) (limit : Int) : ToolResult :=
  match getClient "github" with
  | none => .errorMap "GitHub MCP client not available" none
  | some c =>
    match c.callTool "search_repositories"
        [("query", .str query), ("sort", .str sort), ("per_page", .num limit)] with
    | .ok v => .payload v
    | .error e => .errorMap e none

/-- Embedding of the `get_github_repo_details` tool. -/
def get_github_repo_details (getClient : String → Option MCPClient)
    (owner repo : String) : ToolResult :=
  match getClient "github" with
  | none => .errorMap "GitHub MCP client not available" none
  | some c =>
    match c.callTool "get_repository"
        [("owner", .str owner), ("repo", .str repo)] with
    | .ok v => .payload v
    | .error e => .errorMap e none

/-- A client registry with every capability absent. -/
def noClients : String → Option MCPClient :=
  fun _ => none

/-! ### AgentManager orchestrator

app/agents/entry_agent.py, app/utils and app/services/a2a_service.py are
not under src/, so the entry agent, the MCP manager probe and the A2A
service probe are carried as oracle values on the manager; the deciding
code for the claims below (the initialization guards, the combined
pipeline and the health aggregation) is the present
app/services/agent_manager.py, embedded here. -/

/-- Opaque trend item (app/models/schemas.py is not under src/; its
contents never matter to the orchestration, so it is carried as a blob). -/
structure TrendItem where
  raw : String
deriving DecidableEq, Repr

structure TechTrendsRequest where
  query : String
  limit : Int
  include_hn : Bool
  include_brave : Bool
deriving DecidableEq, Repr

structure TechTrendsResponse where
  query : String
  trends : List TrendItem
  total_items : Nat
  sources : List String
  analysis_timestamp : Nat
  summary : Option String
deriving DecidableEq, Repr

structure GeneralChatRequest where
  message : String
deriving DecidableEq, Repr

structure GeneralChatResponse where
  response : String
  timestamp : Nat
  message_type : String
deriving DecidableEq, Repr

/-- One component health dictionary, as built by the agents. -/
structure AgentHealth where
  status : String
  details : String
  timestamp : Nat
deriving DecidableEq, Repr

/-- Oracle model of the EntryAgent service: each method returns its
result together with the list of external invocations it performed; its
health probe may fault. -/
structure EntryAgentModel where
  processRequest : TechTrendsRequest → TechTrendsResponse × List String
  classifyQuery : String → String
  processGeneralChat : GeneralChatRequest → GeneralChatResponse × List String
  healthCheck : Except String AgentHealth

/-- The specialist agent as owned by the manager: its two reasoning
oracles plus the truthiness of its `mcp_manager` reference (read by its
own health check). -/
structure SpecialistAgentModel where
  details : String → Except String (Option RepoDetails)
  runInsights : List GitHubRepository → Except String String
  mcp_present : Bool

/-- `SpecialistAgent.health_check` (from src): healthy unless the MCP
manager reference is falsy; never raises. -/
def specialistHealthCheck (mcp_present : Bool) (now : Nat) : AgentHealth :=
  if mcp_present then
    { status := "healthy"
      details := "Agent specialist_agent is operational"
      timestamp := now }
  else
    { status := "degraded"
      details := "MCP manager not initialized"
      timestamp := now }

/-- The manager state read by the request-level operations and the health
aggregator.  The MCP-manager and A2A-service probes are
`Except`-valued oracles (their implementations are not under src/). -/
structure AgentManager where
  initialized : Bool
  entry_agent : Option EntryAgentModel
  specialist_agent : Option SpecialistAgentModel
  mcp_manager : Option (Except String (List (String × Bool)))
  a2a_service : Option (Except String (List (String × String)))

/-- The specialist pipeline as invoked by the manager. -/
def specialistProcess (s : SpecialistAgentModel) (now : Nat)
    (request : RepoIntelRequest) : RepoIntelResponse × List String :=
  processRequest s.details s.runInsights now request

/-- Embedding of `AgentManager.process_tech_trends_request`: the guard
`if not self.initialized or not self.entry_agent: raise RuntimeError(...)`
becomes the fallback match arm; the second component records the
invocations performed (none on the guard path). -/
def process_tech_trends_request (m : AgentManager)
    (request : TechTrendsRequest) :
    Except String TechTrendsResponse × List String :=
  match m.initialized, m.entry_agent with
  | true, some e =>
    (.ok (e.processRequest request).1, (e.processRequest request).2)
  | _, _ => (.error "Agent manager not initialized", [])

/-- Payload of the routing result dictionary. -/
inductive RouteData where
  | trends (d : TechTrendsResponse)
  | chat (d : GeneralChatResponse)
deriving DecidableEq, Repr

structure RouteResult where
  route : String
  data : RouteData
deriving DecidableEq, Repr

/-- Embedding of `AgentManager.route_user_intent`. -/
def route_user_intent (m : AgentManager) (input_text : String)
    (limit : Int) (include_hn include_brave : Bool) :
    Except String RouteResult × List String :=
  match m.initialized, m.entry_agent with
  | true, some e =>
    let classification := e.classifyQuery input_text
    if classification = "TECH" then
      let run := e.processRequest
        { query := input_text, limit := limit,
          include_hn := include_hn, include_brave := include_brave }
      (.ok { route := "trends", data := .trends run.1 }, run.2)
    else
      let run := e.processGeneralChat { message := input_text }
      (.ok { route := "chat", data := .chat run.1 }, run.2)
  | _, _ => (.error "Agent manager not initialized", [])

/-- Embedding of `AgentManager.process_repo_intel_request`. -/
def process_repo_intel_request (m : AgentManager) (now : Nat)
    (request : RepoIntelRequest) :
    Except String RepoIntelResponse × List String :=
  match m.initialized, m.specialist_agent with
  | true, some s =>
    (.ok (specialistProcess s now request).1, (specialistProcess s now request).2)
  | _, _ => (.error "Agent manager not initialized", [])

structure CombinedAnalysisRequest where
  query : String
  trend_limit : Int
  auto_detect_repos : Bool
deriving DecidableEq, Repr

structure TrendAnalysis where
  trending_technologies : List String
  related_repositories : List String
  correlation_score : Rat
  key_insights : List String
deriving DecidableEq, Repr

structure CombinedAnalysisResponse where
  query : String
  trends : TechTrendsResponse
  repositories : RepoIntelResponse
  correlation_analysis : TrendAnalysis
  recommendations : List String
  analysis_timestamp : Nat
deriving DecidableEq, Repr

/-- Embedding of `AgentManager.process_combined_analysis_request`.  The
trend request is built from `query` and `trend_limit` only (the other
trend-request flags default to true in the request model, whose file is
not under src/ — they never matter here since the entry pipeline is an
oracle); `repositories_to_analyze` starts empty and the
`auto_detect_repos` placeholder adds nothing, so the specialist branch is
taken only when that list is non-empty. -/
def process_combined_analysis_request (m : AgentManager) (now : Nat)
    (request : CombinedAnalysisRequest) :
    Except String CombinedAnalysisResponse × List String :=
  match m.initialized, m.entry_agent, m.specialist_agent with
  | true, some e, some s =>
    let trends_request : TechTrendsRequest :=
      { query := request.query, limit := request.trend_limit,
        include_hn := true, include_brave := true }
    let trendsRun := e.processRequest trends_request
    let repositories_to_analyze : List String := []
    let repoRun :=
      if repositories_to_analyze.isEmpty then
        (({ repositories := [], total_repos := 0,
            analysis_timestamp := now, insights := none } : RepoIntelResponse),
         ([] : List String))
      else
        specialistProcess s now
          { repositories := repositories_to_analyze, include_metrics := true }
    (.ok { query := request.query
           trends := trendsRun.1
           repositories := repoRun.1
           correlation_analysis :=
             { trending_technologies := [], related_repositories := [],
               correlation_score := 0, key_insights := [] }
           recommendations := []
           analysis_timestamp := now },
     trendsRun.2 ++ repoRun.2)
  | _, _, _ => (.error "Agent manager not initialized", [])

/-- The aggregated health dictionary. -/
structure HealthReport where
  agent_manager_initialized : Bool
  agents : List (String × AgentHealth)
  mcp_servers : List (String × Bool)
  a2a_service : List (String × String)
  timestamp : Nat
deriving DecidableEq, Repr

/-- Embedding of `AgentManager.health_check`: probes each present
component in order (entry agent, specialist agent, MCP manager, A2A
service); none of the awaits is wrapped in its own handler, so a probe
fault (`Except.error`) propagates out of the whole aggregation. -/
def health_check (m : AgentManager) (now : Nat) : Except String HealthReport := do
  let agentsEntry : List (String × AgentHealth) ←
    match m.entry_agent with
    | none => pure []
    | some e => do
      let h ← e.healthCheck
      pure [("entry_agent", h)]
  let agents : List (String × AgentHealth) :=
    match m.specialist_agent with
    | none => agentsEntry
    | some s =>
      agentsEntry ++ [("specialist_agent", specialistHealthCheck s.mcp_present now)]
  let mcp_servers : List (String × Bool) ←
    match m.mcp_manager with
    | none => pure []
    | some p => p
  let a2a : List (String × String) ←
    match m.a2a_service with
    | none => pure []
    | some p => p
  pure { agent_manager_initialized := m.initialized
         agents := agents
         mcp_servers := mcp_servers
         a2a_service := a2a
         timestamp := now }

/-! ### Concrete manager instances for witnesses and counterexamples -/

def entryStub : EntryAgentModel :=
  { processRequest := fun req =>
      ({ query := req.query, trends := [], total_items := 0, sources := [],
         analysis_timestamp := 0, summary := some "s" }, ["entry_agent_run"])
    classifyQuery := fun _ => "TECH"
    processGeneralChat := fun _ =>
      ({ response := "hi", timestamp := 0, message_type := "general" },
       ["general_chat_run"])
    healthCheck := .ok { status := "healthy", details := "operational", timestamp := 0 } }

def specialistStub : SpecialistAgentModel :=
  { details := detailsAlways, runInsights := insightsOk, mcp_present := true }

/-- An uninitialized manager. -/
def uninitManager : AgentManager :=
  { initialized := false, entry_agent := none, specialist_agent := none,
    mcp_manager := none, a2a_service := none }

/-- A fully initialized manager whose probes all succeed. -/
def readyManager : AgentManager :=
  { initialized := true, entry_agent := some entryStub,
    specialist_agent := some specialistStub,
    mcp_manager := some (.ok [("github", true)]),
    a2a_service := some (.ok [("status", "running")]) }

/-- A manager identical to `readyManager` except that the entry agent
probe raises. -/
def faultyProbeManager : AgentManager :=
  { readyManager with
    entry_agent := some { entryStub with healthCheck := .error "probe fault" } }

end PresAgents

namespace PresAgents

/-! ### Shared lemmas about the specialist pipeline -/

theorem analyzeRepository_full_name
    (details : String → Except String (Option RepoDetails))
    (n : String) (im : Bool) (r : GitHubRepository)
    (h : analyzeRepository details n im = some r) : r.full_name = n := by
  unfold analyzeRepository at h
  split at h
  · exact absurd h (by simp)
  · dsimp only at h
    split at h
    · exact absurd h (by simp)
    · exact absurd h (by simp)
    · injection h with h
      subst h
      rfl

theorem map_full_name_sublist
    (details : String → Except String (Option RepoDetails))
    (im : Bool) (l : List String) :
    ((l.filterMap (fun n => analyzeRepository details n im)).map
      (fun r => r.full_name)).Sublist l := by
  induction l with
  | nil => simp
  | cons a t ih =>
    rw [List.filterMap_cons]
    cases hA : analyzeRepository details a im with
    | none => exact ih.cons a
    | some r =>
      rw [List.map_cons, analyzeRepository_full_name details a im r hA]
      exact ih.cons₂ a

theorem splitAtFirstSlash_eq_none (cs : List Char)
    (h : cs.contains '/' = false) : splitAtFirstSlash cs = none := by
  induction cs with
  | nil => rfl
  | cons c t ih =>
    simp only [List.contains_cons, Bool.or_eq_false_iff, beq_eq_false_iff_ne,
      ne_eq] at h
    unfold splitAtFirstSlash
    rw [if_neg (by exact fun hc => h.1 hc.symm), ih h.2]
    rfl

end PresAgents

/-- **C9** For every input string that does not contain the wrapper marker,
`_extract_content` returns the input unchanged (and, being a total Lean
function over a total embedding of the Python string primitives, it never
faults); and when the `AgentRunResult(output='...')` framing is present,
the enclosed text is returned with escaped quotes unescaped, shown here on
a framing around the body `it\'s` which extracts to `it's`. -/
theorem extract_content_spec :
    (∀ s : String,
      PresAgents.strContains PresAgents.wrapperMarker s.toList = false →
      PresAgents.extractContent s = s) ∧
    PresAgents.extractContent
        (String.mk (PresAgents.wrapperMarker ++ ['\''] ++
          ('i' :: 't' :: '\\' :: '\'' :: 's' :: []) ++ ['\''] ++ [')'])) =
      String.mk ('i' :: 't' :: '\'' :: 's' :: []) := by
  constructor
  · intro s h
    have h2 : PresAgents.strContains PresAgents.wrapperMarker s.data = false := h
    unfold PresAgents.extractContent
    simp [h2]
  · decide

/-- Witness for C9: a concrete string without the marker is returned
unchanged, via `extract_content_spec` itself. -/
theorem extract_content_spec_witness :
    PresAgents.strContains PresAgents.wrapperMarker "plain text".toList = false ∧
    PresAgents.extractContent "plain text" = "plain text" :=
  ⟨by decide, extract_content_spec.left "plain text" (by decide)⟩

/-- **C1** For every repository intelligence request whose list has more
than 10 entries, `process_request` hands exactly the first 10 identifiers,
in their original order, to `_analyze_repository` (the rest are silently
ignored), and the returned repositories list contains analyses only for a
subset of those first 10 identifiers, in that order (witnessed by the
full-name projection being a sublist of the first 10 identifiers). -/
theorem process_request_truncates_to_ten
    (details : String → Except String (Option PresAgents.RepoDetails))
    (runInsights : List PresAgents.GitHubRepository → Except String String)
    (now : Nat) (request : PresAgents.RepoIntelRequest)
    (h : request.repositories.length > 10) :
    (PresAgents.processRequest details runInsights now request).2 =
      request.repositories.take 10 ∧
    ((PresAgents.processRequest details runInsights now request).1.repositories.map
      (fun r => r.full_name)).Sublist (request.repositories.take 10) := by
  constructor
  · unfold PresAgents.processRequest
    dsimp only
    split
    · rfl
    · split <;> rfl
  · unfold PresAgents.processRequest
    dsimp only
    split
    · exact PresAgents.map_full_name_sublist details request.include_metrics _
    · split
      · exact PresAgents.map_full_name_sublist details request.include_metrics _
      · simp

/-- Witness for C1: a request with 15 distinct identifiers. -/
theorem process_request_truncates_to_ten_witness :
    (PresAgents.RepoIntelRequest.mk PresAgents.ids15 true).repositories.length > 10 ∧
    ((PresAgents.processRequest PresAgents.detailsNone PresAgents.insightsOk 0
        (PresAgents.RepoIntelRequest.mk PresAgents.ids15 true)).2 =
      (PresAgents.RepoIntelRequest.mk PresAgents.ids15 true).repositories.take 10 ∧
    ((PresAgents.processRequest PresAgents.detailsNone PresAgents.insightsOk 0
        (PresAgents.RepoIntelRequest.mk PresAgents.ids15 true)).1.repositories.map
      (fun r => r.full_name)).Sublist
        ((PresAgents.RepoIntelRequest.mk PresAgents.ids15 true).repositories.take 10)) :=
  ⟨by decide,
   process_request_truncates_to_ten PresAgents.detailsNone PresAgents.insightsOk 0
     (PresAgents.RepoIntelRequest.mk PresAgents.ids15 true) (by decide)⟩

/-- **C2 counterexample** The identifier `"a/b/c"` does not have exactly
one separator, yet `_analyze_repository` does not reject it: with a
details oracle that resolves every lookup, it returns a record (the code
only tests `"/" not in repo_name` and then splits at the first slash). -/
theorem analyze_repository_multi_slash_not_rejected :
    PresAgents.countSlashes "a/b/c" ≠ 1 ∧
    PresAgents.analyzeRepository PresAgents.detailsAlways "a/b/c" true ≠ none ∧
    (PresAgents.analyzeRepository PresAgents.detailsAlways "a/b/c" true).map
      (fun r => (r.owner, r.name)) = some ("a", "b/c") := by
  refine ⟨by decide, by decide, by decide⟩

/-- **C2 amended** Only identifiers containing no separator at all are
rejected by `_analyze_repository` (identifiers with one or more slashes
are split at the first slash and processed); a rejected identifier is
dropped from the batch while the validly-shaped identifiers around it are
processed exactly as they would be without it. -/
theorem analyze_repository_rejects_no_slash
    (details : String → Except String (Option PresAgents.RepoDetails))
    (im : Bool) (n : String)
    (hn : n.toList.contains '/' = false) :
    PresAgents.analyzeRepository details n im = none ∧
    ∀ pre post : List String,
      (pre ++ n :: post).filterMap
          (fun x => PresAgents.analyzeRepository details x im) =
        pre.filterMap (fun x => PresAgents.analyzeRepository details x im) ++
        post.filterMap (fun x => PresAgents.analyzeRepository details x im) := by
  have h1 : PresAgents.analyzeRepository details n im = none := by
    unfold PresAgents.analyzeRepository
    rw [PresAgents.splitAtFirstSlash_eq_none n.toList hn]
  refine ⟨h1, fun pre post => ?_⟩
  rw [List.filterMap_append, List.filterMap_cons, h1]

/-- Witness for C2 amended: `"badformat"` is dropped while its two valid
siblings are processed unaffected. -/
theorem analyze_repository_rejects_no_slash_witness :
    ("badformat".toList.contains '/' = false) ∧
    (PresAgents.analyzeRepository PresAgents.detailsAlways "badformat" true = none ∧
    ∀ pre post : List String,
      (pre ++ "badformat" :: post).filterMap
          (fun x => PresAgents.analyzeRepository PresAgents.detailsAlways x true) =
        pre.filterMap
          (fun x => PresAgents.analyzeRepository PresAgents.detailsAlways x true) ++
        post.filterMap
          (fun x => PresAgents.analyzeRepository PresAgents.detailsAlways x true)) :=
  ⟨by decide,
   analyze_repository_rejects_no_slash PresAgents.detailsAlways true "badformat"
     (by decide)⟩

/-- **C8** When an unclassified fault is raised at the top level of
`process_request` (here: the insights reasoning call raises after at
least one repository was analyzed), the fault is caught and converted to
a response whose insights field carries a human-readable error note and
whose collections are empty. -/
theorem process_request_fault_response
    (details : String → Except String (Option PresAgents.RepoDetails))
    (runInsights : List PresAgents.GitHubRepository → Except String String)
    (now : Nat) (request : PresAgents.RepoIntelRequest) (e : String)
    (hne : (request.repositories.take 10).filterMap
        (fun n => PresAgents.analyzeRepository details n request.include_metrics) ≠ [])
    (hf : runInsights ((request.repositories.take 10).filterMap
        (fun n => PresAgents.analyzeRepository details n request.include_metrics)) =
      .error e) :
    (PresAgents.processRequest details runInsights now request).1 =
      { repositories := []
        total_repos := 0
        analysis_timestamp := now
        insights := some ("An error occurred: " ++ e) } := by
  unfold PresAgents.processRequest
  dsimp only
  rw [if_neg (by simpa [List.isEmpty_iff] using hne), hf]

/-- Witness for C8: one resolvable identifier, an insights oracle that
raises `"boom"`. -/
theorem process_request_fault_response_witness :
    ((PresAgents.RepoIntelRequest.mk ["a/b"] true).repositories.take 10).filterMap
        (fun n => PresAgents.analyzeRepository PresAgents.detailsAlways n true) ≠ [] ∧
    (PresAgents.processRequest PresAgents.detailsAlways PresAgents.insightsFail 7
        (PresAgents.RepoIntelRequest.mk ["a/b"] true)).1 =
      { repositories := []
        total_repos := 0
        analysis_timestamp := 7
        insights := some ("An error occurred: " ++ "boom") } :=
  ⟨by decide,
   process_request_fault_response PresAgents.detailsAlways PresAgents.insightsFail 7
     (PresAgents.RepoIntelRequest.mk ["a/b"] true) "boom" (by decide) (by rfl)⟩

/-- **C10** Every response produced by `process_request` — on the no-data
path, the success path and the fault path alike — satisfies the invariant
that `total_repos` equals the length of its `repositories` list. -/
theorem process_request_total_repos_invariant
    (details : String → Except String (Option PresAgents.RepoDetails))
    (runInsights : List PresAgents.GitHubRepository → Except String String)
    (now : Nat) (request : PresAgents.RepoIntelRequest) :
    (PresAgents.processRequest details runInsights now request).1.total_repos =
      (PresAgents.processRequest details runInsights now request).1.repositories.length := by
  unfold PresAgents.processRequest
  dsimp only
  split
  · rfl
  · split <;> rfl

/-- **C3** A delegation send to an unknown recipient returns a response
with status `"error"` without raising (the embedding is total); a
delegation send to the repository agent (`"specialist_agent"`) with
payload `{repositories: ["a/b"]}` returns an `"ok"` response whose result
is exactly the pipeline output — here the empty response, since the
handler re-reads a `payload` key that the delivered dictionary does not
carry — and whose `total_repos` equals the number of validly-shaped
identifiers from that payload that were actually resolved into records of
the returned result (both are zero, for every details oracle). -/
theorem a2a_send_contract :
    (∀ (details : String → Except String (Option PresAgents.RepoDetails))
       (runInsights : List PresAgents.GitHubRepository → Except String String)
       (now : Nat) (sp : Bool) (recipient mt : String)
       (payload : PresAgents.A2AMessageDict) (cid : Option String),
      recipient ≠ "specialist_agent" →
      (PresAgents.a2aSend details runInsights now sp recipient mt payload cid).status =
        "error") ∧
    (∀ (details : String → Except String (Option PresAgents.RepoDetails))
       (runInsights : List PresAgents.GitHubRepository → Except String String)
       (now : Nat) (cid : Option String),
      PresAgents.a2aSend details runInsights now true "specialist_agent"
          "delegation_request" PresAgents.payloadAB cid =
        { status := "ok"
          result := .ok { repositories := [], total_repos := 0,
                          analysis_timestamp := now,
                          insights := some "No repositories could be analyzed." }
          correlation_id := cid }) ∧
    (∀ (details : String → Except String (Option PresAgents.RepoDetails))
       (runInsights : List PresAgents.GitHubRepository → Except String String)
       (now : Nat) (cid : Option String) (r : PresAgents.RepoIntelResponse),
      (PresAgents.a2aSend details runInsights now true "specialist_agent"
          "delegation_request" PresAgents.payloadAB cid).result = .ok r →
      r.total_repos =
        (r.repositories.filter (fun rec => rec.full_name = "a/b")).length) := by
  refine ⟨?_, ?_, ?_⟩
  · intro details runInsights now sp recipient mt payload cid h
    simp [PresAgents.a2aSend, PresAgents.receiveA2AMessage, h]
  · intro details runInsights now cid
    rfl
  · intro details runInsights now cid r hr
    have h2 : PresAgents.A2AResult.ok
        ({ repositories := [], total_repos := 0, analysis_timestamp := now,
           insights := some "No repositories could be analyzed." } :
          PresAgents.RepoIntelResponse) = .ok r := by
      rw [← hr]; rfl
    injection h2 with h2
    rw [← h2]
    rfl

/-- Witness for C3: the unknown recipient `"unknown_agent"` yields status
`"error"`, and the specialist delegation contract at concrete oracles. -/
theorem a2a_send_contract_witness :
    (("unknown_agent" : String) ≠ "specialist_agent" ∧
     (PresAgents.a2aSend PresAgents.detailsAlways PresAgents.insightsOk 4 true
        "unknown_agent" "delegation_request" PresAgents.payloadAB none).status =
       "error") ∧
    ((PresAgents.a2aSend PresAgents.detailsAlways PresAgents.insightsOk 4 true
        "specialist_agent" "delegation_request" PresAgents.payloadAB none).result =
       .ok { repositories := [], total_repos := 0, analysis_timestamp := 4,
             insights := some "No repositories could be analyzed." } ∧
     ({ repositories := [], total_repos := 0, analysis_timestamp := 4,
        insights := some "No repositories could be analyzed." } :
        PresAgents.RepoIntelResponse).total_repos =
       (([] : List PresAgents.GitHubRepository).filter
         (fun rec => rec.full_name = "a/b")).length) :=
  ⟨⟨by decide,
    a2a_send_contract.1 PresAgents.detailsAlways PresAgents.insightsOk 4 true
      "unknown_agent" "delegation_request" PresAgents.payloadAB none (by decide)⟩,
   by rfl,
   a2a_send_contract.2.2 PresAgents.detailsAlways PresAgents.insightsOk 4 none
     { repositories := [], total_repos := 0, analysis_timestamp := 4,
       insights := some "No repositories could be analyzed." } (by rfl)⟩

/-- **C4** For every capability whose client is absent from the registry,
the corresponding tool returns the error dictionary naming that
capability — and, the embeddings being total functions into `ToolResult`,
never raises to the caller. -/
theorem tools_unavailable_error
    (getClient : String → Option PresAgents.MCPClient)
    (braveLimit limit : Int)
    (query freshness sort story_type owner repo : String) :
    (getClient "brave_search" = none →
      PresAgents.search_brave getClient braveLimit query freshness =
        .errorMap "Brave Search MCP client not available" none) ∧
    (getClient "hacker_news" = none →
      PresAgents.get_hacker_news_stories getClient story_type limit =
        .errorMap "Hacker News MCP client not available" none) ∧
    (getClient "github" = none →
      PresAgents.search_github_repos getClient query sort limit =
        .errorMap "GitHub MCP client not available" none) ∧
    (getClient "github" = none →
      PresAgents.get_github_repo_details getClient owner repo =
        .errorMap "GitHub MCP client not available" none) := by
  refine ⟨?_, ?_, ?_, ?_⟩ <;>
    · intro h
      first
      | (unfold PresAgents.search_brave; rw [h])
      | (unfold PresAgents.get_hacker_news_stories; rw [h])
      | (unfold PresAgents.search_github_repos; rw [h])
      | (unfold PresAgents.get_github_repo_details; rw [h])

/-- Witness for C4: the empty registry makes all four tools report their
capability as unavailable. -/
theorem tools_unavailable_error_witness :
    PresAgents.noClients "brave_search" = none ∧
    PresAgents.search_brave PresAgents.noClients 20 "q" "pm" =
      .errorMap "Brave Search MCP client not available" none ∧
    PresAgents.get_hacker_news_stories PresAgents.noClients "top" 10 =
      .errorMap "Hacker News MCP client not available" none ∧
    PresAgents.search_github_repos PresAgents.noClients "q" "stars" 10 =
      .errorMap "GitHub MCP client not available" none ∧
    PresAgents.get_github_repo_details PresAgents.noClients "o" "r" =
      .errorMap "GitHub MCP client not available" none :=
  ⟨rfl,
   (tools_unavailable_error PresAgents.noClients 20 10 "q" "pm" "stars" "top" "o" "r").1 rfl,
   (tools_unavailable_error PresAgents.noClients 20 10 "q" "pm" "stars" "top" "o" "r").2.1 rfl,
   (tools_unavailable_error PresAgents.noClients 20 10 "q" "pm" "stars" "top" "o" "r").2.2.1 rfl,
   (tools_unavailable_error PresAgents.noClients 20 10 "q" "pm" "stars" "top" "o" "r").2.2.2 rfl⟩

/-- **C5** Every request-level operation of the AgentManager invoked
while `initialized` is false fails fast with the not-initialized
condition and performs no partial work: its invocation trace is empty. -/
theorem not_initialized_fails_fast
    (m : PresAgents.AgentManager) (now : Nat)
    (ttr : PresAgents.TechTrendsRequest) (text : String) (limit : Int)
    (ihn ibr : Bool) (rir : PresAgents.RepoIntelRequest)
    (car : PresAgents.CombinedAnalysisRequest)
    (h : m.initialized = false) :
    PresAgents.process_tech_trends_request m ttr =
      (.error "Agent manager not initialized", []) ∧
    PresAgents.route_user_intent m text limit ihn ibr =
      (.error "Agent manager not initialized", []) ∧
    PresAgents.process_repo_intel_request m now rir =
      (.error "Agent manager not initialized", []) ∧
    PresAgents.process_combined_analysis_request m now car =
      (.error "Agent manager not initialized", []) := by
  refine ⟨?_, ?_, ?_, ?_⟩ <;>
    simp only [PresAgents.process_tech_trends_request,
      PresAgents.route_user_intent, PresAgents.process_repo_intel_request,
      PresAgents.process_combined_analysis_request, h]

/-- Witness for C5: the uninitialized manager at concrete requests. -/
theorem not_initialized_fails_fast_witness :
    PresAgents.uninitManager.initialized = false ∧
    (PresAgents.process_tech_trends_request PresAgents.uninitManager
        { query := "q", limit := 10, include_hn := true, include_brave := true } =
      (.error "Agent manager not initialized", []) ∧
    PresAgents.route_user_intent PresAgents.uninitManager "hello" 10 true true =
      (.error "Agent manager not initialized", []) ∧
    PresAgents.process_repo_intel_request PresAgents.uninitManager 0
        { repositories := ["a/b"], include_metrics := true } =
      (.error "Agent manager not initialized", []) ∧
    PresAgents.process_combined_analysis_request PresAgents.uninitManager 0
        { query := "q", trend_limit := 5, auto_detect_repos := true } =
      (.error "Agent manager not initialized", [])) :=
  ⟨rfl,
   not_initialized_fails_fast PresAgents.uninitManager 0
     { query := "q", limit := 10, include_hn := true, include_brave := true }
     "hello" 10 true true
     { repositories := ["a/b"], include_metrics := true }
     { query := "q", trend_limit := 5, auto_detect_repos := true } rfl⟩

/-- **C6 counterexample** A fault raised by a single component probe does
prevent the other probes from being collected: in `faultyProbeManager`
the specialist agent is present (and its own probe never raises), yet the
entry probe fault makes the whole `health_check` produce no mapping at
all, so the specialist probe result appears nowhere. -/
theorem health_check_fault_aborts_collection :
    PresAgents.faultyProbeManager.specialist_agent.isSome = true ∧
    PresAgents.specialistHealthCheck true 0 =
      { status := "healthy",
        details := "Agent specialist_agent is operational", timestamp := 0 } ∧
    PresAgents.health_check PresAgents.faultyProbeManager 0 =
      .error "probe fault" := by
  refine ⟨rfl, rfl, rfl⟩

/-- **C6 amended** `health_check` aggregates every present component
probe into one mapping when no probe faults; but there is no failure
isolation: a fault raised by the entry agent probe propagates out of
`health_check` itself, so none of the other probes is collected into a
returned mapping (the HTTP layer catches the propagated fault). -/
theorem health_check_amended :
    (∀ (m : PresAgents.AgentManager) (now : Nat)
       (e : PresAgents.EntryAgentModel) (s : PresAgents.SpecialistAgentModel)
       (he : PresAgents.AgentHealth) (mcp : List (String × Bool))
       (a2a : List (String × String)),
      m.entry_agent = some e → e.healthCheck = .ok he →
      m.specialist_agent = some s →
      m.mcp_manager = some (.ok mcp) → m.a2a_service = some (.ok a2a) →
      PresAgents.health_check m now =
        .ok { agent_manager_initialized := m.initialized
              agents := [("entry_agent", he),
                ("specialist_agent",
                  PresAgents.specialistHealthCheck s.mcp_present now)]
              mcp_servers := mcp
              a2a_service := a2a
              timestamp := now }) ∧
    (∀ (m : PresAgents.AgentManager) (now : Nat)
       (e : PresAgents.EntryAgentModel) (err : String),
      m.entry_agent = some e → e.healthCheck = .error err →
      PresAgents.health_check m now = .error err) := by
  constructor
  · intro m now e s he mcp a2a h1 h2 h3 h4 h5
    unfold PresAgents.health_check
    rw [h1]
    dsimp only
    rw [h2, h3, h4, h5]
    rfl
  · intro m now e err h1 h2
    unfold PresAgents.health_check
    rw [h1]
    dsimp only
    rw [h2]
    rfl

/-- Witness for C6 amended: the all-probes-healthy manager aggregates
into one mapping; the faulty-probe manager propagates the fault. -/
theorem health_check_amended_witness :
    (PresAgents.readyManager.entry_agent = some PresAgents.entryStub ∧
     PresAgents.entryStub.healthCheck =
       .ok { status := "healthy", details := "operational", timestamp := 0 } ∧
     PresAgents.health_check PresAgents.readyManager 9 =
       .ok { agent_manager_initialized := true
             agents := [("entry_agent",
               { status := "healthy", details := "operational", timestamp := 0 }),
               ("specialist_agent", PresAgents.specialistHealthCheck true 9)]
             mcp_servers := [("github", true)]
             a2a_service := [("status", "running")]
             timestamp := 9 }) ∧
    PresAgents.health_check PresAgents.faultyProbeManager 9 =
      .error "probe fault" :=
  ⟨⟨rfl, rfl,
    (health_check_amended.1 PresAgents.readyManager 9 PresAgents.entryStub
      PresAgents.specialistStub
      { status := "healthy", details := "operational", timestamp := 0 }
      [("github", true)] [("status", "running")] rfl rfl rfl rfl rfl)⟩,
   health_check_amended.2 PresAgents.faultyProbeManager 9
     { PresAgents.entryStub with healthCheck := .error "probe fault" }
     "probe fault" rfl rfl⟩

/-- **C7** For every combined analysis request (no repository identifiers
are ever detected: auto-detection always yields the empty set), the
operation returns the trend pipeline output together with an empty
repository section (`repositories = []`, `total_repos = 0`), and the
repository pipeline is never run: the invocation trace is exactly the
entry pipeline trace. -/
theorem combined_analysis_empty_repo_section
    (m : PresAgents.AgentManager) (e : PresAgents.EntryAgentModel)
    (s : PresAgents.SpecialistAgentModel) (now : Nat)
    (request : PresAgents.CombinedAnalysisRequest)
    (hi : m.initialized = true) (he : m.entry_agent = some e)
    (hs : m.specialist_agent = some s) :
    PresAgents.process_combined_analysis_request m now request =
      (.ok { query := request.query
             trends := (e.processRequest
               { query := request.query, limit := request.trend_limit,
                 include_hn := true, include_brave := true }).1
             repositories := { repositories := [], total_repos := 0,
                               analysis_timestamp := now, insights := none }
             correlation_analysis :=
               { trending_technologies := [], related_repositories := [],
                 correlation_score := 0, key_insights := [] }
             recommendations := []
             analysis_timestamp := now },
       (e.processRequest
         { query := request.query, limit := request.trend_limit,
           include_hn := true, include_brave := true }).2) := by
  unfold PresAgents.process_combined_analysis_request
  rw [hi, he, hs]
  simp

/-- Witness for C7: the ready manager, a request with auto-detection
enabled. -/
theorem combined_analysis_empty_repo_section_witness :
    PresAgents.readyManager.initialized = true ∧
    PresAgents.process_combined_analysis_request PresAgents.readyManager 2
        { query := "q", trend_limit := 5, auto_detect_repos := true } =
      (.ok { query := "q"
             trends := (PresAgents.entryStub.processRequest
               { query := "q", limit := 5,
                 include_hn := true, include_brave := true }).1
             repositories := { repositories := [], total_repos := 0,
                               analysis_timestamp := 2, insights := none }
             correlation_analysis :=
               { trending_technologies := [], related_repositories := [],
                 correlation_score := 0, key_insights := [] }
             recommendations := []
             analysis_timestamp := 2 },
       (PresAgents.entryStub.processRequest
         { query := "q", limit := 5,
           include_hn := true, include_brave := true }).2) :=
  ⟨rfl,
   combined_analysis_empty_repo_section PresAgents.readyManager
     PresAgents.entryStub PresAgents.specialistStub 2
     { query := "q", trend_limit := 5, auto_detect_repos := true } rfl rfl rfl⟩
